import Mathlib

/-!
Verification of the admission-control / rate-limiting code of the
engineering-gotchas repository.

The ep4 component (`src/ep4/main.go`) is embedded as a trace semantics:
`sendRequest` produces the ordered list of observable events (downstream
invocations, backoff sleeps, outcome deliveries) of the Go retry loop, with
the randomized third-party call abstracted as an oracle
`Nat → APIResult` giving the result of each attempt.  `processQueue`
produces the worker's trace over a queue of items; each dequeue-and-invoke
cycle is gated by exactly one ticker receive, exactly as in the Go select
loop.  The ep2 component (`src/ep2/main.go`) is embedded as a pure state
transformer on the limiter state, with `time.Now()` passed explicitly.
-/

namespace EP4

/-- Result of one invocation of the third-party API, as classified by
`sendRequest`: a successful response, the `ErrRateLimited` sentinel, or any
other error. -/
inductive APIResult
  | success (data : String)
  | rateLimited
  | otherErr (msg : String)
deriving DecidableEq, Repr

/-- The error values that can appear in an `APIResponse` delivered to a
caller.  Distinct constructors model distinct Go error values: the
`ErrRateLimited` package-level sentinel, the `fmt.Errorf("request failed
after %d retries", n)` value created when the retry budget is spent, and
any other error. -/
inductive GoErr
  | rateLimited
  | failedAfterRetries (n : Nat)
  | other (msg : String)
deriving DecidableEq, Repr

/-- The `APIResponse` struct: payload data plus an optional error. -/
structure APIResponse where
  data : String
  err : Option GoErr
deriving DecidableEq, Repr

/-- Observable events of the dispatch worker.  `throttleRelease` is a
receive on `ticker.C`; `invoke` is a call to `callThirdPartyAPI` for the
given user at the given (1-based) attempt number; `sleep` is a
`time.Sleep` of the given number of milliseconds; `deliver` is a send on
the item's `Response` channel. -/
inductive Event
  | throttleRelease
  | invoke (uid : String) (attempt : Nat)
  | sleep (ms : Nat)
  | deliver (uid : String) (resp : APIResponse)
deriving DecidableEq, Repr

/-- `maxRetries` as configured in `sendRequest`. -/
def maxRetries : Nat := 5

/-- Initial `backoff` in `sendRequest`: 500 ms. -/
def initialBackoffMs : Nat := 500

/-- The response sent when the loop exits with all retries failed:
`&APIResponse{Err: fmt.Errorf("request failed after %d retries", maxRetries)}`. -/
def retriesExhaustedResp : APIResponse :=
  ⟨"", some (GoErr.failedAfterRetries maxRetries)⟩

/-- `callThirdPartyAPI` with the random draw made explicit: `limited` is
the event `rand.Float32() < 0.3`.  On the non-limited draw it returns
`Processed data for user <uid>`. -/
def callThirdPartyAPI (limited : Bool) (uid : String) : APIResult :=
  if limited then APIResult.rateLimited
  else APIResult.success ("Processed data for user " ++ uid)

/-- The body of the `for attempt := 1; attempt <= maxRetries; attempt++`
loop of `sendRequest`, as a trace.  `fuel` is the number of loop
iterations still permitted (`maxRetries - attempt + 1`); `backoff` is the
current backoff in milliseconds.  On `rateLimited` the loop sleeps the
current backoff, multiplies the backoff by `2 ^ attempt`
(`backoff = time.Duration(float64(backoff) * math.Pow(2, float64(attempt)))`;
all values involved are 500·2^k ms, exactly representable in float64, so
the Nat product is exact), and continues; on any other error or on success
it delivers and returns; when the attempt counter passes `maxRetries` it
delivers the retries-exhausted response. -/
def runAttempts (uid : String) (oracle : Nat → APIResult) :
    Nat → Nat → Nat → List Event
  | _, 0, _ => [Event.deliver uid retriesExhaustedResp]
  | attempt, fuel + 1, backoff =>
    match oracle attempt with
    | APIResult.success d =>
        [Event.invoke uid attempt, Event.deliver uid ⟨d, none⟩]
    | APIResult.otherErr m =>
        [Event.invoke uid attempt, Event.deliver uid ⟨"", some (GoErr.other m)⟩]
    | APIResult.rateLimited =>
        Event.invoke uid attempt :: Event.sleep backoff ::
          runAttempts uid oracle (attempt + 1) fuel (backoff * 2 ^ attempt)

/-- Trace of `sendRequest` for one item: the loop starts at attempt 1 with
the full retry budget and the initial 500 ms backoff. -/
def sendRequest (uid : String) (oracle : Nat → APIResult) : List Event :=
  runAttempts uid oracle 1 maxRetries initialBackoffMs

/-- A queued work item: caller id plus the oracle describing what the
third-party API returns on each of its attempts. -/
abbrev QItem := String × (Nat → APIResult)

/-- Trace of `processQueue` over a queue of items, in the run in which the
worker dequeues and processes every queued item: each cycle receives one
ticker release (`<-ticker.C`) and then runs `sendRequest` to completion.
The Go channel `requestChan` is FIFO, so the queue is a list consumed from
the head. -/
def processQueue (qs : List QItem) : List Event :=
  qs.flatMap fun q => Event.throttleRelease :: sendRequest q.1 q.2

/-- A resolution of the `select` in `processQueue` once `shutdownChan` has
been closed: the shutdown case is then always ready, so the scheduler may
pick it at any iteration; the dequeue case is ready while the queue is
nonempty. -/
inductive Choice
  | shutdown
  | dequeue
deriving DecidableEq, Repr

/-- `processQueue` after `Shutdown` has closed `shutdownChan`, driven by a
schedule of select resolutions.  Returns the trace of the remaining run
and the items still sitting in `requestChan` when the worker returns.
Picking `shutdown` returns immediately; with an empty queue only the
shutdown case is ready, so the worker returns; an exhausted schedule is
read as the scheduler picking shutdown next. -/
def runWorkerShutdown : List Choice → List QItem → List Event × List QItem
  | _, [] => ([], [])
  | [], qs => ([], qs)
  | Choice.shutdown :: _, qs => ([], qs)
  | Choice.dequeue :: s, q :: qs =>
      let r := runWorkerShutdown s qs
      (Event.throttleRelease :: sendRequest q.1 q.2 ++ r.1, r.2)

/-- Number of `deliver` events in a trace. -/
def deliverCount (t : List Event) : Nat :=
  t.countP fun e => match e with
    | Event.deliver _ _ => true
    | _ => false

/-- Number of `invoke` events in a trace. -/
def invokeCount (t : List Event) : Nat :=
  t.countP fun e => match e with
    | Event.invoke _ _ => true
    | _ => false

/-- Number of `throttleRelease` events in a trace. -/
def releaseCount (t : List Event) : Nat :=
  t.countP fun e => match e with
    | Event.throttleRelease => true
    | _ => false

/-- The list of sleep durations of a trace, in order. -/
def sleeps (t : List Event) : List Nat :=
  t.filterMap fun e => match e with
    | Event.sleep ms => some ms
    | _ => none

/-- The list of responses delivered in a trace, in order. -/
def delivered (t : List Event) : List APIResponse :=
  t.filterMap fun e => match e with
    | Event.deliver _ r => some r
    | _ => none

/-- The first response delivered in a trace, if any. -/
def outcomeOf (t : List Event) : Option APIResponse :=
  (delivered t).head?

/-- The caller ids of first attempts (`invoke _ 1`), in trace order: the
order in which items are dispatched. -/
def dispatched (t : List Event) : List String :=
  t.filterMap fun e => match e with
    | Event.invoke u a => if a = 1 then some u else none
    | _ => none

/-- Checks that every `invoke` in the trace is covered by a throttle
release observed since the previous `invoke`: scanning left to right,
`credit` records whether a release has been observed and not yet spent on
an invocation. -/
def throttledOK : List Event → Bool → Bool
  | [], _ => true
  | Event.throttleRelease :: t, _ => throttledOK t true
  | Event.invoke _ _ :: t, credit => credit && throttledOK t false
  | _ :: t, credit => throttledOK t credit

/-- The backoff in force when attempt `k` (1-based) fails rate-limited,
i.e. the duration slept after attempt `k`: 500 ms initially, and after
the sleep of attempt `k` the backoff becomes `backoffAt k * 2 ^ k`. -/
def backoffAt : Nat → Nat
  | 0 => initialBackoffMs
  | k + 1 => backoffAt k * 2 ^ k

/-- A buffered Go channel of `APIResponse` values: capacity and current
buffer contents.  The `Response` channel of a `UserRequest` is created
with `make(chan *APIResponse, 1)`. -/
structure Chan where
  cap : Nat
  buf : List APIResponse
deriving DecidableEq, Repr

/-- A send on a buffered channel with no waiting receiver: succeeds
(appending to the buffer) when the buffer has space, otherwise would
block, modelled as `none`. -/
def chanSend (c : Chan) (v : APIResponse) : Option Chan :=
  if c.buf.length < c.cap then some { c with buf := c.buf ++ [v] } else none

/-- Performs a sequence of sends on a channel, blocking (`none`) if any
send blocks. -/
def sendAll (c : Option Chan) (vs : List APIResponse) : Option Chan :=
  vs.foldl (fun oc v => oc.bind fun ch => chanSend ch v) c

/-- A fresh `Response` channel: `make(chan *APIResponse, 1)`. -/
def freshResponseChan : Chan := ⟨1, []⟩

/-- The HTTP status the handler in `main` writes for a received response:
`resp.Err == ErrRateLimited` gives 429 (`StatusTooManyRequests`), any
other error gives 500 (`StatusInternalServerError`), no error gives 200. -/
def handlerStatus (resp : APIResponse) : Nat :=
  match resp.err with
  | some e => if e = GoErr.rateLimited then 429 else 500
  | none => 200

/-- What the caller's `select` in the handler observes: a response from
the worker, or the 5-second `time.After` firing first. -/
inductive CallerView
  | received (resp : APIResponse)
  | timedOut
deriving DecidableEq, Repr

/-- The HTTP status written by the handler for each outcome of the
caller-side `select`: a received response is classified by
`handlerStatus`; the timeout case writes 504 (`StatusGatewayTimeout`). -/
def handlerResult : CallerView → Nat
  | CallerView.received resp => handlerStatus resp
  | CallerView.timedOut => 504

/-- The oracle under which every attempt is rate-limited. -/
def constRL : Nat → APIResult := fun _ => APIResult.rateLimited

/-- Oracle for the C1 counterexample: attempt 1 is rate-limited, attempt 2
succeeds. -/
def c1Oracle : Nat → APIResult := fun k =>
  if k = 1 then APIResult.rateLimited else APIResult.success "ok"

/-- The oracle under which every attempt fails with a non-rate-limited
error. -/
def permOracle : Nat → APIResult := fun _ => APIResult.otherErr "boom"

end EP4

namespace EP2

/-- The `Visitor` record of the fixed-window counter: last-seen time
(modelled as a Nat clock reading) and the request count in the current
window. -/
structure Visitor where
  lastSeen : Nat
  requests : Nat
deriving DecidableEq, Repr

/-- `RequestLimit`: max requests per window. -/
def RequestLimit : Nat := 5

/-- `TimeWindow`: one minute, in the same clock units as `lastSeen`. -/
def TimeWindow : Nat := 60000

/-- The `visitors` map, as an association list keyed by user id. -/
abbrev VisitorMap := List (String × Visitor)

/-- Go map read `rl.visitors[userID]`. -/
def lookupV (m : VisitorMap) (uid : String) : Option Visitor :=
  (m.find? fun p => p.1 = uid).map Prod.snd

/-- Go map write `rl.visitors[userID] = v` (and the in-place pointer
mutation of an existing entry): replaces the entry for `uid` if present,
otherwise appends it. -/
def setV (m : VisitorMap) (uid : String) (v : Visitor) : VisitorMap :=
  match m with
  | [] => [(uid, v)]
  | p :: rest =>
      if p.1 = uid then (uid, v) :: rest else p :: setV rest uid v

/-- The `RateLimiter` state of ep2: the visitors map and the
storage-availability toggle. -/
structure RateLimiter where
  visitors : VisitorMap
  storageEnabled : Bool
deriving DecidableEq, Repr

/-- `SimulateStorageFailure`: sets the storage toggle. -/
def SimulateStorageFailure (rl : RateLimiter) (enable : Bool) : RateLimiter :=
  { rl with storageEnabled := enable }

/-- `Limit(userID)`: returns `(limited, err)` and the updated limiter
state, with `time.Now()` passed in as `now`.  With storage disabled it
returns `(false, some msg)` without touching the map.  Otherwise: an
unknown visitor is inserted with count 1; a visitor last seen more than
`TimeWindow` ago is reset to count 1; otherwise the count is incremented
and `limited` is whether it now exceeds `RequestLimit`.  `time.Since` is
modelled as truncated subtraction `now - lastSeen`. -/
def Limit (rl : RateLimiter) (userID : String) (now : Nat) :
    (Bool × Option String) × RateLimiter :=
  if !rl.storageEnabled then
    ((false, some "storage unavailable"), rl)
  else
    match lookupV rl.visitors userID with
    | none =>
        ((false, none),
          { rl with visitors := setV rl.visitors userID ⟨now, 1⟩ })
    | some v =>
        if now - v.lastSeen > TimeWindow then
          ((false, none),
            { rl with visitors := setV rl.visitors userID ⟨now, 1⟩ })
        else
          let v2 : Visitor := ⟨now, v.requests + 1⟩
          ((decide (v2.requests > RequestLimit), none),
            { rl with visitors := setV rl.visitors userID v2 })

/-- Concrete disabled-storage limiter used to witness the C10 theorem. -/
def rlDisabled : RateLimiter := ⟨[("a", ⟨0, 3⟩)], false⟩

/-- Concrete enabled-storage limiter used to witness the C10 theorem. -/
def rlEnabled : RateLimiter := ⟨[("a", ⟨0, 3⟩)], true⟩

end EP2

namespace EP4

theorem deliverCount_runAttempts (uid : String) (oracle : Nat → APIResult)
    (fuel : Nat) :
    ∀ attempt backoff, deliverCount (runAttempts uid oracle attempt fuel backoff) = 1 := by
  induction fuel with
  | zero =>
      intro a b
      simp [runAttempts, deliverCount]
  | succ n ih =>
      intro a b
      cases h : oracle a <;>
        simp [runAttempts, h, deliverCount, List.countP_cons] <;>
        simpa [deliverCount] using ih (a + 1) (b * 2 ^ a)

theorem deliverCount_sendRequest (uid : String) (oracle : Nat → APIResult) :
    deliverCount (sendRequest uid oracle) = 1 :=
  deliverCount_runAttempts uid oracle maxRetries 1 initialBackoffMs

theorem releaseCount_runAttempts (uid : String) (oracle : Nat → APIResult)
    (fuel : Nat) :
    ∀ attempt backoff, releaseCount (runAttempts uid oracle attempt fuel backoff) = 0 := by
  induction fuel with
  | zero =>
      intro a b
      simp [runAttempts, releaseCount]
  | succ n ih =>
      intro a b
      cases h : oracle a <;>
        simp [runAttempts, h, releaseCount, List.countP_cons] <;>
        simpa [releaseCount] using ih (a + 1) (b * 2 ^ a)

theorem releaseCount_sendRequest (uid : String) (oracle : Nat → APIResult) :
    releaseCount (sendRequest uid oracle) = 0 :=
  releaseCount_runAttempts uid oracle maxRetries 1 initialBackoffMs

theorem length_delivered (t : List Event) :
    (delivered t).length = deliverCount t := by
  induction t with
  | nil => simp [delivered, deliverCount]
  | cons e t ih =>
      cases e <;> simp [delivered, deliverCount, List.countP_cons] at ih ⊢ <;>
        simpa [delivered, deliverCount] using ih

theorem dispatched_runAttempts_high (uid : String) (oracle : Nat → APIResult)
    (fuel : Nat) :
    ∀ attempt backoff, 2 ≤ attempt →
      dispatched (runAttempts uid oracle attempt fuel backoff) = [] := by
  induction fuel with
  | zero =>
      intro a b _
      simp [runAttempts, dispatched]
  | succ n ih =>
      intro a b ha
      have ha1 : ¬ a = 1 := by omega
      cases h : oracle a <;>
        simp [runAttempts, h, dispatched, ha1] <;>
        simpa [dispatched] using ih (a + 1) (b * 2 ^ a) (by omega)

theorem dispatched_sendRequest (uid : String) (oracle : Nat → APIResult) :
    dispatched (sendRequest uid oracle) = [uid] := by
  cases h : oracle 1 <;>
    simp [sendRequest, maxRetries, runAttempts, h, dispatched] <;>
    simpa [dispatched] using
      dispatched_runAttempts_high uid oracle 4 2 (initialBackoffMs * 2 ^ 1) (by omega)

theorem sleeps_runAttempts_chain (uid : String) (oracle : Nat → APIResult)
    (fuel : Nat) :
    ∀ attempt backoff, 1 ≤ attempt → 1 ≤ backoff →
      List.Chain' (fun a b => a < b)
          (sleeps (runAttempts uid oracle attempt fuel backoff)) ∧
        ∀ x ∈ sleeps (runAttempts uid oracle attempt fuel backoff), backoff ≤ x := by
  induction fuel with
  | zero =>
      intro a b _ _
      simp [runAttempts, sleeps]
  | succ n ih =>
      intro a b ha hb
      cases h : oracle a
      case success d => simp [runAttempts, h, sleeps]
      case otherErr m => simp [runAttempts, h, sleeps]
      case rateLimited =>
        have h2 : 2 ≤ 2 ^ a := by
          calc 2 = 2 ^ 1 := by norm_num
          _ ≤ 2 ^ a := Nat.pow_le_pow_right (by norm_num) ha
        have hlt : b < b * 2 ^ a :=
          (Nat.lt_mul_iff_one_lt_right hb).mpr (by omega)
        have hb2 : 1 ≤ b * 2 ^ a := le_trans hb (le_of_lt hlt)
        obtain ⟨ihc, ihm⟩ := ih (a + 1) (b * 2 ^ a) (by omega) hb2
        constructor
        · simp only [runAttempts, h, sleeps, List.filterMap_cons]
          rw [List.chain'_cons']
          refine ⟨?_, ihc⟩
          intro y hy
          have hmem : y ∈ sleeps (runAttempts uid oracle (a + 1) n (b * 2 ^ a)) :=
            List.mem_of_mem_head? hy
          exact lt_of_lt_of_le hlt (ihm y hmem)
        · intro x hx
          simp only [runAttempts, h, sleeps, List.filterMap_cons] at hx
          rcases List.mem_cons.mp hx with rfl | hx2
          · exact le_refl x
          · exact le_trans (le_of_lt hlt) (ihm x hx2)

theorem sendRequest_constRL (uid : String) :
    sendRequest uid constRL =
      [Event.invoke uid 1, Event.sleep 500,
       Event.invoke uid 2, Event.sleep 1000,
       Event.invoke uid 3, Event.sleep 4000,
       Event.invoke uid 4, Event.sleep 32000,
       Event.invoke uid 5, Event.sleep 512000,
       Event.deliver uid retriesExhaustedResp] := rfl

theorem processQueue_cons (q : QItem) (qs : List QItem) :
    processQueue (q :: qs) =
      Event.throttleRelease :: (sendRequest q.1 q.2 ++ processQueue qs) := by
  simp [processQueue]

theorem dispatched_append (s t : List Event) :
    dispatched (s ++ t) = dispatched s ++ dispatched t := by
  simp [dispatched, List.filterMap_append]

theorem releaseCount_cons_release (t : List Event) :
    releaseCount (Event.throttleRelease :: t) = releaseCount t + 1 := by
  simp [releaseCount, List.countP_cons]

theorem releaseCount_append (s t : List Event) :
    releaseCount (s ++ t) = releaseCount s + releaseCount t := by
  simp [releaseCount, List.countP_append]

theorem backoffAt_eq_pow_sum (k : Nat) :
    backoffAt k = initialBackoffMs * 2 ^ (∑ i ∈ Finset.range k, i) := by
  induction k with
  | zero => simp [backoffAt]
  | succ n ih => rw [backoffAt, ih, Finset.sum_range_succ, pow_add, mul_assoc]

theorem backoffAt_closed (k : Nat) :
    backoffAt k = 500 * 2 ^ (k * (k - 1) / 2) := by
  rw [backoffAt_eq_pow_sum, Finset.sum_range_id, initialBackoffMs]

end EP4

/-- Claim C1 counterexample: the claim says every attempt (retries
included) observes a Throttle release before invoking the downstream
capability.  For the queue holding one item whose first attempt is
rate-limited and whose second succeeds, the worker trace contains a second
invocation with no release observed since the first, so the
release-before-each-invoke discipline fails on this concrete input. -/
theorem C1_cex :
    EP4.throttledOK (EP4.processQueue [("u1", EP4.c1Oracle)]) false = false := by
  decide

/-- Claim C1, amended: `processQueue` observes exactly one ticker release
per dequeued WorkItem, before that item's first attempt; the retry loop of
`sendRequest` never observes a release, so retries after a RateLimited
failure invoke the downstream capability gated only by the backoff sleep. -/
theorem C1_throttle_gates_only_first_attempt (qs : List EP4.QItem) :
    EP4.releaseCount (EP4.processQueue qs) = qs.length ∧
      ∀ uid oracle, EP4.releaseCount (EP4.sendRequest uid oracle) = 0 ∧
        ∃ rest, EP4.sendRequest uid oracle = EP4.Event.invoke uid 1 :: rest := by
  constructor
  · induction qs with
    | nil => rfl
    | cons q qs ih =>
        rw [EP4.processQueue_cons, EP4.releaseCount_cons_release,
          EP4.releaseCount_append, EP4.releaseCount_sendRequest, ih,
          List.length_cons]
        omega
  · intro uid oracle
    refine ⟨EP4.releaseCount_sendRequest uid oracle, ?_⟩
    cases h : oracle 1
    case success d =>
      exact ⟨[EP4.Event.deliver uid ⟨d, none⟩],
        by simp [EP4.sendRequest, EP4.maxRetries, EP4.runAttempts, h]⟩
    case rateLimited =>
      exact ⟨EP4.Event.sleep EP4.initialBackoffMs ::
          EP4.runAttempts uid oracle 2 4 (EP4.initialBackoffMs * 2 ^ 1),
        by simp [EP4.sendRequest, EP4.maxRetries, EP4.runAttempts, h]⟩
    case otherErr m =>
      exact ⟨[EP4.Event.deliver uid ⟨"", some (EP4.GoErr.other m)⟩],
        by simp [EP4.sendRequest, EP4.maxRetries, EP4.runAttempts, h]⟩

/-- Claim C2: for a WorkItem whose every downstream invocation is
RateLimited, `sendRequest` performs exactly `maxRetries` (= 5) invocations
and delivers the retries-exhausted response. -/
theorem C2_all_rate_limited_exhausts_retries (uid : String)
    (oracle : Nat → EP4.APIResult)
    (h : ∀ k, oracle k = EP4.APIResult.rateLimited) :
    EP4.invokeCount (EP4.sendRequest uid oracle) = EP4.maxRetries ∧
      EP4.outcomeOf (EP4.sendRequest uid oracle) = some EP4.retriesExhaustedResp := by
  have ho : oracle = EP4.constRL := funext h
  subst ho
  rw [EP4.sendRequest_constRL]
  exact ⟨rfl, rfl⟩

/-- Witness for C2 at the concrete always-rate-limited oracle. -/
theorem C2_witness :
    EP4.invokeCount (EP4.sendRequest "u" EP4.constRL) = EP4.maxRetries ∧
      EP4.outcomeOf (EP4.sendRequest "u" EP4.constRL) =
        some EP4.retriesExhaustedResp :=
  C2_all_rate_limited_exhausts_retries "u" EP4.constRL fun _ => rfl

/-- Claim C3 counterexample: the claim says the backoff delay before the
next retry is base × 2^attempt with base 500 ms.  In the all-rate-limited
run the fourth delay slept is 32000 ms, which matches neither
500 × 2^4 = 8000 (1-based attempt numbering) nor 500 × 2^3 = 4000
(0-based), so the geometric-growth formula is wrong on this concrete
input. -/
theorem C3_cex :
    (EP4.sleeps (EP4.sendRequest "u" EP4.constRL))[3]? = some 32000 ∧
      (32000 : Nat) ≠ EP4.initialBackoffMs * 2 ^ 4 ∧
      (32000 : Nat) ≠ EP4.initialBackoffMs * 2 ^ 3 := by
  decide

/-- Claim C3, amended: the delay slept after attempt `k` is
`backoffAt k = 500 × 2^(k(k−1)/2)` ms — the code multiplies the running
backoff by `2^attempt` each iteration, so the exponent accumulates
triangularly rather than growing by one per attempt.  The delay is still
deterministic given the attempt number (`backoffAt` is a function of `k`),
and the sleeps of the all-rate-limited run are exactly
`backoffAt 1 … backoffAt 5`. -/
theorem C3_backoff_triangular_exponent :
    (∀ k, EP4.backoffAt k = 500 * 2 ^ (k * (k - 1) / 2)) ∧
      EP4.sleeps (EP4.sendRequest "u" EP4.constRL) =
        [EP4.backoffAt 1, EP4.backoffAt 2, EP4.backoffAt 3,
         EP4.backoffAt 4, EP4.backoffAt 5] := by
  exact ⟨EP4.backoffAt_closed, by decide⟩

/-- Claim C4 counterexample: the claim says the Admission Queue is drained
to empty before the worker halts and every accepted item still receives a
terminal Outcome.  After `Shutdown` closes `shutdownChan`, the select's
shutdown case is always ready; in the run where the scheduler picks it
first with one item still queued, the worker returns with the item still
in the queue and no `deliver` event having occurred. -/
theorem C4_cex :
    (EP4.runWorkerShutdown [EP4.Choice.shutdown]
        [("u1", EP4.constRL)]).2.map Prod.fst = ["u1"] ∧
      EP4.deliverCount (EP4.runWorkerShutdown [EP4.Choice.shutdown]
        [("u1", EP4.constRL)]).1 = 0 :=
  ⟨rfl, rfl⟩

/-- Claim C4, amended: `processQueue` performs no draining on shutdown —
whenever the scheduler resolves the select to the shutdown case, the
worker halts immediately, leaving every still-queued item in the queue and
delivering no Outcome for them (their callers are released only by their
own 5-second deadline, not by the worker). -/
theorem C4_shutdown_does_not_drain (s : List EP4.Choice) (qs : List EP4.QItem) :
    EP4.runWorkerShutdown (EP4.Choice.shutdown :: s) qs = ([], qs) := by
  cases qs <;> rfl

/-- Claim C5 counterexample: the claim says RetriesExhausted maps to the
429-equivalent signal, distinct from the PermanentFailure status.  The
retries-exhausted response carries a fresh error value, not
`ErrRateLimited`, so the handler writes 500 for it — the same status as a
permanent failure and not 429. -/
theorem C5_cex :
    EP4.handlerStatus EP4.retriesExhaustedResp = 500 ∧
      EP4.handlerStatus EP4.retriesExhaustedResp ≠ 429 ∧
      EP4.handlerStatus EP4.retriesExhaustedResp =
        EP4.handlerStatus ⟨"", some (EP4.GoErr.other "downstream broke")⟩ := by
  decide

/-- Claim C5, amended: the handler maps the `ErrRateLimited` value to 429,
but both RetriesExhausted and PermanentFailure to 500 (they are not
distinguishable by status), success to 200, and the caller-side timeout to
504. -/
theorem C5_status_mapping :
    EP4.handlerStatus ⟨"", some EP4.GoErr.rateLimited⟩ = 429 ∧
      (∀ n, EP4.handlerStatus ⟨"", some (EP4.GoErr.failedAfterRetries n)⟩ = 500) ∧
      (∀ m d, EP4.handlerStatus ⟨d, some (EP4.GoErr.other m)⟩ = 500) ∧
      (∀ d, EP4.handlerStatus ⟨d, none⟩ = 200) ∧
      EP4.handlerResult EP4.CallerView.timedOut = 504 :=
  ⟨rfl, fun _ => rfl, fun _ _ => rfl, fun _ => rfl, rfl⟩

/-- Claim C6: per WorkItem, `sendRequest` emits exactly one `deliver`
event, whatever the downstream results are; and replaying its delivered
responses against the item's capacity-1 buffered `Response` channel — on
which an abandoning caller has performed no receive — the single send
succeeds without blocking, leaving exactly one buffered response.  So
at-most-one delivery holds and a write after abandonment is discarded
into the buffer without blocking or error. -/
theorem C6_exactly_one_delivery (uid : String) (oracle : Nat → EP4.APIResult) :
    EP4.deliverCount (EP4.sendRequest uid oracle) = 1 ∧
      ∃ c : EP4.Chan,
        EP4.sendAll (some EP4.freshResponseChan)
            (EP4.delivered (EP4.sendRequest uid oracle)) = some c ∧
          c.buf.length = 1 := by
  have h1 := EP4.deliverCount_sendRequest uid oracle
  refine ⟨h1, ?_⟩
  have h2 : (EP4.delivered (EP4.sendRequest uid oracle)).length = 1 := by
    rw [EP4.length_delivered]
    exact h1
  obtain ⟨v, hv⟩ := List.length_eq_one.mp h2
  exact ⟨⟨1, [v]⟩, by rw [hv]; rfl, rfl⟩

/-- Claim C7: dispatch order equals enqueue order exactly — over any queue
contents, the sequence of first downstream invocations in the worker trace
is the sequence of queued caller ids, in FIFO order, with no reordering. -/
theorem C7_fifo_dispatch_order (qs : List EP4.QItem) :
    EP4.dispatched (EP4.processQueue qs) = qs.map Prod.fst := by
  induction qs with
  | nil => rfl
  | cons q qs ih =>
      rw [EP4.processQueue_cons]
      have hc : EP4.dispatched (EP4.Event.throttleRelease ::
          (EP4.sendRequest q.1 q.2 ++ EP4.processQueue qs)) =
          EP4.dispatched (EP4.sendRequest q.1 q.2 ++ EP4.processQueue qs) := by
        simp [EP4.dispatched]
      rw [hc, EP4.dispatched_append, EP4.dispatched_sendRequest, ih]
      rfl

/-- Claim C8: a non-RateLimited failure on attempt 1 produces exactly one
downstream invocation and the immediate delivery of the permanent-failure
response, with no retry and no backoff sleep: the whole trace is the one
invocation followed by the delivery. -/
theorem C8_permanent_failure_no_retry (uid : String)
    (oracle : Nat → EP4.APIResult) (m : String)
    (h : oracle 1 = EP4.APIResult.otherErr m) :
    EP4.sendRequest uid oracle =
        [EP4.Event.invoke uid 1,
         EP4.Event.deliver uid ⟨"", some (EP4.GoErr.other m)⟩] ∧
      EP4.invokeCount (EP4.sendRequest uid oracle) = 1 ∧
      EP4.sleeps (EP4.sendRequest uid oracle) = [] := by
  have ht : EP4.sendRequest uid oracle =
      [EP4.Event.invoke uid 1,
       EP4.Event.deliver uid ⟨"", some (EP4.GoErr.other m)⟩] := by
    simp [EP4.sendRequest, EP4.maxRetries, EP4.runAttempts, h]
  rw [ht]
  exact ⟨rfl, rfl, rfl⟩

/-- Witness for C8 at the concrete always-permanent-failure oracle. -/
theorem C8_witness :
    EP4.sendRequest "u" EP4.permOracle =
        [EP4.Event.invoke "u" 1,
         EP4.Event.deliver "u" ⟨"", some (EP4.GoErr.other "boom")⟩] ∧
      EP4.invokeCount (EP4.sendRequest "u" EP4.permOracle) = 1 ∧
      EP4.sleeps (EP4.sendRequest "u" EP4.permOracle) = [] :=
  C8_permanent_failure_no_retry "u" EP4.permOracle "boom" rfl

/-- Claim C9: the backoff delays slept between consecutive attempts of one
WorkItem strictly increase, for every pattern of downstream results. -/
theorem C9_backoff_strictly_increasing (uid : String)
    (oracle : Nat → EP4.APIResult) :
    List.Chain' (fun a b => a < b) (EP4.sleeps (EP4.sendRequest uid oracle)) :=
  (EP4.sleeps_runAttempts_chain uid oracle EP4.maxRetries 1 EP4.initialBackoffMs
    (by decide) (by decide)).1

/-- Claim C10: with storage disabled, `Limit` returns the storage error
and leaves the limiter state (in particular the visitors map) completely
unchanged, for every prior state, user and clock reading; with storage
enabled, `Limit` never returns an error. -/
theorem C10_limit_storage_toggle (rl : EP2.RateLimiter) (uid : String)
    (now : Nat) :
    (rl.storageEnabled = false →
        (EP2.Limit rl uid now).1.2 = some "storage unavailable" ∧
          (EP2.Limit rl uid now).2 = rl) ∧
      (rl.storageEnabled = true → (EP2.Limit rl uid now).1.2 = none) := by
  constructor
  · intro h
    rw [EP2.Limit]
    simp [h]
  · intro h
    rw [EP2.Limit]
    simp only [h, Bool.not_true, Bool.false_eq_true, if_false]
    cases EP2.lookupV rl.visitors uid with
    | none => rfl
    | some v =>
        by_cases hw : now - v.lastSeen > EP2.TimeWindow <;> simp [hw]

/-- Witness for C10: a concrete disabled-storage state returns the error
and is left unchanged; a concrete enabled-storage state returns no
error. -/
theorem C10_witness :
    ((EP2.Limit EP2.rlDisabled "a" 5).1.2 = some "storage unavailable" ∧
        (EP2.Limit EP2.rlDisabled "a" 5).2 = EP2.rlDisabled) ∧
      (EP2.Limit EP2.rlEnabled "a" 5).1.2 = none :=
  ⟨(C10_limit_storage_toggle EP2.rlDisabled "a" 5).1 rfl,
    (C10_limit_storage_toggle EP2.rlEnabled "a" 5).2 rfl⟩
